import Mathlib

/-!
Verification of the Human Design coordinate-mapping engine.

Shallow embedding of the core calculation code of the repository:
`original_calculation.py` (gate partition table, gate/line resolver,
design-time solver, activation set builder) and
`src/human_design/models/{core,bodygraph,coordinates}.py`
(`Planet.lon_ut`, `RawBodyGraph._activations_for_jd`, `BirthInfo`
construction-time validation).

Degrees are embedded as rationals (`ℚ`): every number occurring in the
partition table is an exact multiple of 1/7200 of a degree, Python's
float `%`/`floor` on these values agrees with exact rational arithmetic,
and all boundary values compared for equality are produced by
syntactically identical expressions.  Python's `x % y` (which takes the
sign of the divisor) is embedded as `pymod`; fallible code returns
`Option`, with `none` standing for a raised exception.  The Swiss
Ephemeris is external to the repository, so every function that calls it
is parametrised by an ephemeris oracle `swe` mapping a Julian Day and a
body number to the raw `(longitude, speed)` pair.
-/

namespace HD

/-- Python's `x % y` for floats with `y > 0`: `x - y * ⌊x / y⌋` (the
result has the sign of the divisor, as in Python). -/
def pymod (x y : ℚ) : ℚ := x - y * ⌊x / y⌋

/-- Embedding of `_norm360` from `original_calculation.py`: `x % 360.0`. -/
def _norm360 (x : ℚ) : ℚ := pymod x 360

/-- Embedding of `_angdiff_signed` from `original_calculation.py` (also the inner
`_angdiff_signed` of `BirthInfo.design_jd_ut`):
`(a - b + 180.0) % 360.0 - 180.0`. -/
def _angdiff_signed (a b : ℚ) : ℚ := pymod (a - b + 180) 360 - 180

theorem pymod_eq_mul_fract (x : ℚ) {y : ℚ} (hy : y ≠ 0) :
    pymod x y = y * Int.fract (x / y) := by
  unfold pymod Int.fract
  rw [mul_sub, mul_div_cancel₀ _ hy]

theorem pymod_nonneg (x : ℚ) {y : ℚ} (hy : 0 < y) : 0 ≤ pymod x y := by
  rw [pymod_eq_mul_fract x hy.ne']
  exact mul_nonneg hy.le (Int.fract_nonneg _)

theorem pymod_lt (x : ℚ) {y : ℚ} (hy : 0 < y) : pymod x y < y := by
  rw [pymod_eq_mul_fract x hy.ne']
  calc y * Int.fract (x / y) < y * 1 := (mul_lt_mul_left hy).2 (Int.fract_lt_one _)
  _ = y := mul_one y

theorem pymod_eq_self {x y : ℚ} (h0 : 0 ≤ x) (h1 : x < y) : pymod x y = x := by
  have hy : 0 < y := lt_of_le_of_lt h0 h1
  have hfl : ⌊x / y⌋ = 0 :=
    Int.floor_eq_zero_iff.2 ⟨div_nonneg h0 hy.le, (div_lt_one hy).2 h1⟩
  unfold pymod
  rw [hfl]
  simp

/-- Adding an integer multiple of the modulus does not change `pymod`. -/
theorem pymod_add_mul_int (x y : ℚ) (k : ℤ) : pymod (x + y * k) y = pymod x y := by
  rcases eq_or_ne y 0 with rfl | hy
  · simp [pymod]
  · unfold pymod
    rw [add_div, mul_div_cancel_left₀ _ hy, Int.floor_add_int]
    push_cast
    ring

theorem norm360_nonneg (x : ℚ) : 0 ≤ _norm360 x :=
  pymod_nonneg x (by norm_num)

theorem norm360_lt (x : ℚ) : _norm360 x < 360 :=
  pymod_lt x (by norm_num)

theorem norm360_eq_self {x : ℚ} (h0 : 0 ≤ x) (h1 : x < 360) : _norm360 x = x :=
  pymod_eq_self h0 h1

/-- Normalizing the first argument of `_angdiff_signed` is absorbed by
the `% 360` inside it. -/
theorem angdiff_norm360_left (a b : ℚ) :
    _angdiff_signed (_norm360 a) b = pymod (a - b + 180) 360 - 180 := by
  unfold _angdiff_signed
  congr 1
  have h : _norm360 a - b + 180 = a - b + 180 + 360 * (-⌊a / 360⌋ : ℤ) := by
    unfold _norm360 pymod
    push_cast
    ring
  rw [h, pymod_add_mul_int]

/-- Embedding of `_d` from `original_calculation.py`:
`sign_base + deg + minutes / 60.0 + seconds / 3600.0`. -/
def _d (sign_base : ℚ) (deg minutes seconds : ℚ) : ℚ :=
  sign_base + deg + minutes / 60 + seconds / 3600

/-- Sign bases, as bound in `_build_gate_ranges`. -/
def AR : ℚ := 0
def TA : ℚ := 30
def GE : ℚ := 60
def CA : ℚ := 90
def LE : ℚ := 120
def VI : ℚ := 150
def LI : ℚ := 180
def SC : ℚ := 210
def SG : ℚ := 240
def CP : ℚ := 270
def AQ : ℚ := 300
def PI : ℚ := 330

/-- One entry of `GATE_RANGES`: `(gate, start_deg, end_deg)`. -/
abbrev GateArc := ℕ × ℚ × ℚ

/-- The first `_add` call of `_build_gate_ranges`: the tail arc of gate
25, which wraps across 0°/360° and is split off separately. -/
def wrapArc : GateArc := (25, _d PI 28 15 0, 360)

/-- The remaining 64 `_add` calls of `_build_gate_ranges`, in order:
a contiguous chain of arcs from 0° up to the start of `wrapArc`. -/
def tailArcs : List GateArc :=
  [ (25, 0, _d AR 3 52 30)
  , (17, _d AR 3 52 30, _d AR 9 30 0)
  , (21, _d AR 9 30 0, _d AR 15 7 30)
  , (51, _d AR 15 7 30, _d AR 20 45 0)
  , (42, _d AR 20 45 0, _d AR 26 22 30)
  , (3, _d AR 26 22 30, _d TA 2 0 0)
  , (27, _d TA 2 0 0, _d TA 7 37 30)
  , (24, _d TA 7 37 30, _d TA 13 15 0)
  , (2, _d TA 13 15 0, _d TA 18 52 30)
  , (23, _d TA 18 52 30, _d TA 24 30 0)
  , (8, _d TA 24 30 0, _d GE 0 7 30)
  , (20, _d GE 0 7 30, _d GE 5 45 0)
  , (16, _d GE 5 45 0, _d GE 11 22 30)
  , (35, _d GE 11 22 30, _d GE 17 0 0)
  , (45, _d GE 17 0 0, _d GE 22 27 30)
  , (12, _d GE 22 27 30, _d GE 28 15 0)
  , (15, _d GE 28 15 0, _d CA 3 52 30)
  , (52, _d CA 3 52 30, _d CA 9 30 0)
  , (39, _d CA 9 30 0, _d CA 15 7 30)
  , (53, _d CA 15 7 30, _d CA 20 45 0)
  , (62, _d CA 20 45 0, _d CA 26 22 30)
  , (56, _d CA 26 22 30, _d LE 2 0 0)
  , (31, _d LE 2 0 0, _d LE 7 37 30)
  , (33, _d LE 7 37 30, _d LE 13 15 0)
  , (7, _d LE 13 15 0, _d LE 18 52 30)
  , (4, _d LE 18 52 30, _d LE 24 30 0)
  , (29, _d LE 24 30 0, _d VI 0 7 30)
  , (59, _d VI 0 7 30, _d VI 5 45 0)
  , (40, _d VI 5 45 0, _d VI 11 22 30)
  , (64, _d VI 11 22 30, _d VI 17 0 0)
  , (47, _d VI 17 0 0, _d VI 22 27 30)
  , (6, _d VI 22 27 30, _d VI 28 15 0)
  , (46, _d VI 28 15 0, _d LI 3 52 30)
  , (18, _d LI 3 52 30, _d LI 9 30 0)
  , (48, _d LI 9 30 0, _d LI 15 7 30)
  , (57, _d LI 15 7 30, _d LI 20 45 0)
  , (32, _d LI 20 45 0, _d LI 26 22 30)
  , (50, _d LI 26 22 30, _d SC 2 0 0)
  , (28, _d SC 2 0 0, _d SC 7 37 30)
  , (44, _d SC 7 37 30, _d SC 13 15 0)
  , (1, _d SC 13 15 0, _d SC 18 52 30)
  , (43, _d SC 18 52 30, _d SC 24 30 0)
  , (14, _d SC 24 30 0, _d SG 0 7 30)
  , (34, _d SG 0 7 30, _d SG 5 45 0)
  , (9, _d SG 5 45 0, _d SG 11 22 30)
  , (5, _d SG 11 22 30, _d SG 17 0 0)
  , (26, _d SG 17 0 0, _d SG 22 27 30)
  , (11, _d SG 22 27 30, _d SG 28 15 0)
  , (10, _d SG 28 15 0, _d CP 3 52 30)
  , (58, _d CP 3 52 30, _d CP 9 30 0)
  , (38, _d CP 9 30 0, _d CP 15 7 30)
  , (54, _d CP 15 7 30, _d CP 20 45 0)
  , (61, _d CP 20 45 0, _d CP 26 22 30)
  , (60, _d CP 26 22 30, _d AQ 2 0 0)
  , (41, _d AQ 2 0 0, _d AQ 7 37 30)
  , (19, _d AQ 7 37 30, _d AQ 13 15 0)
  , (13, _d AQ 13 15 0, _d AQ 18 52 30)
  , (49, _d AQ 18 52 30, _d AQ 24 30 0)
  , (30, _d AQ 24 30 0, _d PI 0 7 30)
  , (55, _d PI 0 7 30, _d PI 5 45 0)
  , (37, _d PI 5 45 0, _d PI 11 22 30)
  , (63, _d PI 11 22 30, _d PI 17 0 0)
  , (22, _d PI 17 0 0, _d PI 22 27 30)
  , (36, _d PI 22 27 30, _d PI 28 15 0) ]

/-- The table `GATE_RANGES` as built by `_build_gate_ranges` in
`original_calculation.py`, in the order the `_add` calls append them:
the wrap-tail arc of gate 25 first, then the chain from 0°. -/
def GATE_RANGES : List GateArc := wrapArc :: tailArcs

/-- The loop body of `gate_line_from_longitude`: walk the arcs in order
and return the first arc containing the (already normalized) longitude,
computing the line by six-fold subdivision clamped into `[1, 6]`;
`none` models the trailing `raise RuntimeError` ("no gate range found"). -/
def scanGateRanges (lon : ℚ) : List GateArc → Option (ℕ × ℤ)
  | [] => none
  | (gate, start, stop) :: rest =>
    if start ≤ stop then
      if start ≤ lon ∧ lon < stop then
        some (gate, min (max (⌊(lon - start) / ((stop - start) / 6)⌋ + 1) 1) 6)
      else scanGateRanges lon rest
    else
      if lon ≥ start ∨ lon < stop then
        some (gate,
          min (max
            (⌊(if lon ≥ start then lon - start else (360 - start) + lon) /
                (((360 - start) + stop) / 6)⌋ + 1) 1) 6)
      else scanGateRanges lon rest

/-- Embedding of `gate_line_from_longitude` from `original_calculation.py` (the same
algorithm as `BodyGraphDefinition.gate_and_line_from_longitude` in
`models/bodygraph.py`). -/
def gate_line_from_longitude (lon : ℚ) : Option (ℕ × ℤ) :=
  scanGateRanges (_norm360 lon) GATE_RANGES

/-- One-step unfolding of the scan, used to step through the arc list in
a controlled way. -/
theorem scan_cons (lon : ℚ) (gate : ℕ) (start stop : ℚ) (rest : List GateArc) :
    scanGateRanges lon ((gate, start, stop) :: rest) =
      if start ≤ stop then
        if start ≤ lon ∧ lon < stop then
          some (gate, min (max (⌊(lon - start) / ((stop - start) / 6)⌋ + 1) 1) 6)
        else scanGateRanges lon rest
      else
        if lon ≥ start ∨ lon < stop then
          some (gate,
            min (max
              (⌊(if lon ≥ start then lon - start else (360 - start) + lon) /
                  (((360 - start) + stop) / 6)⌋ + 1) 1) 6)
        else scanGateRanges lon rest := rfl

theorem GATE_RANGES_eq : GATE_RANGES = (25, _d PI 28 15 0, 360) :: tailArcs := rfl

/-- A list of arcs forms a contiguous chain from `a` to `b`: each arc
starts where the previous one ended, and each arc is nonempty. -/
def ChainedArcsTo : ℚ → ℚ → List GateArc → Prop
  | a, b, [] => a = b
  | a, b, arc :: rest => arc.2.1 = a ∧ arc.2.1 < arc.2.2 ∧ ChainedArcsTo arc.2.2 b rest

theorem chainedArcsTo_le {L : List GateArc} :
    ∀ {a b : ℚ}, ChainedArcsTo a b L → a ≤ b := by
  induction L with
  | nil => intro a b h; exact le_of_eq h
  | cons arc rest ih =>
    intro a b h
    obtain ⟨hs, hlt, hrest⟩ := h
    calc a = arc.2.1 := hs.symm
    _ ≤ arc.2.2 := le_of_lt hlt
    _ ≤ b := ih hrest

theorem chainedArcsTo_start_le {L : List GateArc} :
    ∀ {a b : ℚ}, ChainedArcsTo a b L → ∀ arc ∈ L, a ≤ arc.2.1 := by
  induction L with
  | nil => intro a b _ arc h; cases h
  | cons hd rest ih =>
    intro a b h arc hm
    obtain ⟨hs, hlt, hrest⟩ := h
    rcases List.mem_cons.1 hm with rfl | hm'
    · exact le_of_eq hs.symm
    · calc a = hd.2.1 := hs.symm
      _ ≤ hd.2.2 := le_of_lt hlt
      _ ≤ arc.2.1 := ih hrest arc hm'

theorem chainedArcsTo_end_le {L : List GateArc} :
    ∀ {a b : ℚ}, ChainedArcsTo a b L → ∀ arc ∈ L, arc.2.2 ≤ b := by
  induction L with
  | nil => intro a b _ arc h; cases h
  | cons hd rest ih =>
    intro a b h arc hm
    obtain ⟨hs, hlt, hrest⟩ := h
    rcases List.mem_cons.1 hm with rfl | hm'
    · exact chainedArcsTo_le hrest
    · exact ih hrest arc hm'

theorem clamp_line_bounds (x : ℤ) : 1 ≤ min (max x 1) 6 ∧ min (max x 1) 6 ≤ 6 := by
  omega

/-- Scanning a chained arc list finds an arc for every longitude in
`[a, b)`, returning a gate from the list and a clamped line. -/
theorem scan_covers {L : List GateArc} :
    ∀ {a b lon : ℚ}, ChainedArcsTo a b L → a ≤ lon → lon < b →
      ∃ g l, scanGateRanges lon L = some (g, l) ∧
        (∃ s e, (g, s, e) ∈ L) ∧ 1 ≤ l ∧ l ≤ 6 := by
  induction L with
  | nil =>
    intro a b lon h ha hb
    exact absurd (lt_of_le_of_lt ha hb) (by rw [h]; exact lt_irrefl b)
  | cons hd rest ih =>
    intro a b lon h ha hb
    obtain ⟨g, s, e⟩ := hd
    obtain ⟨hs, hlt, hrest⟩ := h
    simp only at hs hlt hrest
    by_cases hl : lon < e
    · refine ⟨g, min (max (⌊(lon - s) / ((e - s) / 6)⌋ + 1) 1) 6, ?_,
        ⟨s, e, List.mem_cons_self _ _⟩,
        (clamp_line_bounds _).1, (clamp_line_bounds _).2⟩
      simp only [scanGateRanges, if_pos (le_of_lt hlt),
        if_pos (And.intro (hs ▸ ha) hl)]
    · obtain ⟨g', l', heq, ⟨s', e', hm⟩, hb1, hb6⟩ :=
        ih hrest (le_of_not_lt hl) hb
      refine ⟨g', l', ?_, ⟨s', e', List.mem_cons_of_mem _ hm⟩, hb1, hb6⟩
      simp only [scanGateRanges, if_pos (le_of_lt hlt)]
      rw [if_neg (by intro hand; exact hl hand.2)]
      exact heq

set_option maxHeartbeats 2000000 in
/-- The 64 arcs after the wrap-tail arc chain contiguously from 0° to
the start of the wrap-tail arc (28°15' Pisces = 358.25°). -/
theorem tailArcs_chained : ChainedArcsTo 0 (_d PI 28 15 0) tailArcs := by
  simp only [tailArcs, ChainedArcsTo]
  norm_num [_d, AR, TA, GE, CA, LE, VI, LI, SC, SG, CP, AQ, PI]

/-- The gate numbers of the table, in order. -/
theorem gate_numbers_eval : GATE_RANGES.map (fun a => a.1) =
    [25, 25, 17, 21, 51, 42, 3, 27, 24, 2, 23, 8, 20, 16, 35, 45, 12, 15,
     52, 39, 53, 62, 56, 31, 33, 7, 4, 29, 59, 40, 64, 47, 6, 46, 18, 48,
     57, 32, 50, 28, 44, 1, 43, 14, 34, 9, 5, 26, 11, 10, 58, 38, 54, 61,
     60, 41, 19, 13, 49, 30, 55, 37, 63, 22, 36] := rfl

theorem gate_numbers_bounded : ∀ arc ∈ GATE_RANGES, 1 ≤ arc.1 ∧ arc.1 ≤ 64 := by
  intro arc h
  have h2 : arc.1 ∈ GATE_RANGES.map (fun a => a.1) := List.mem_map_of_mem _ h
  rw [gate_numbers_eval] at h2
  simp only [List.mem_cons, List.not_mem_nil, or_false] at h2
  omega

/-- The resolver succeeds on every rational longitude (it normalizes
into `[0, 360)` first), returning a gate from the table and a line in
`[1, 6]`. -/
theorem resolver_total (lon : ℚ) :
    ∃ g l, gate_line_from_longitude lon = some (g, l) ∧
      1 ≤ g ∧ g ≤ 64 ∧ 1 ≤ l ∧ l ≤ 6 := by
  have h0 := norm360_nonneg lon
  have h1 := norm360_lt lon
  have hwrap_le : _d PI 28 15 0 ≤ (360 : ℚ) := by norm_num [_d, PI]
  unfold gate_line_from_longitude
  set v := _norm360 lon with hv
  by_cases hc : v < _d PI 28 15 0
  · have hnand : ¬(_d PI 28 15 0 ≤ v ∧ v < 360) := fun hand =>
      absurd hand.1 (not_le.2 hc)
    have hskip : scanGateRanges v GATE_RANGES = scanGateRanges v tailArcs := by
      rw [GATE_RANGES_eq, scan_cons, if_pos hwrap_le, if_neg hnand]
    obtain ⟨g, l, heq, ⟨s, e, hm⟩, hb1, hb6⟩ := scan_covers tailArcs_chained h0 hc
    refine ⟨g, l, by rw [hskip]; exact heq, ?_, ?_, hb1, hb6⟩
    · exact (gate_numbers_bounded (g, s, e) (List.mem_cons_of_mem _ hm)).1
    · exact (gate_numbers_bounded (g, s, e) (List.mem_cons_of_mem _ hm)).2
  · have hand : _d PI 28 15 0 ≤ v ∧ v < 360 := And.intro (le_of_not_lt hc) h1
    refine ⟨25,
      min (max (⌊(v - _d PI 28 15 0) / ((360 - _d PI 28 15 0) / 6)⌋ + 1) 1) 6,
      ?_, by norm_num, by norm_num, (clamp_line_bounds _).1,
      (clamp_line_bounds _).2⟩
    rw [GATE_RANGES_eq, scan_cons, if_pos hwrap_le, if_pos hand]

/-- C1: for every longitude in `[0, 360)`, `gate_line_from_longitude`
returns a gate in `[1, 64]` and a line in `[1, 6]` without reaching the
`RuntimeError` branch (`none`): the error branch is unreachable for the
partition table built by `_build_gate_ranges`. -/
theorem C1_resolver_total_in_range (lon : ℚ) (_h0 : 0 ≤ lon) (_h1 : lon < 360) :
    ∃ g l, gate_line_from_longitude lon = some (g, l) ∧
      1 ≤ g ∧ g ≤ 64 ∧ 1 ≤ l ∧ l ≤ 6 :=
  resolver_total lon

/-- Witness for C1 at the concrete longitude 42°. -/
theorem C1_witness : (0 : ℚ) ≤ 42 ∧ (42 : ℚ) < 360 ∧
    ∃ g l, gate_line_from_longitude 42 = some (g, l) ∧
      1 ≤ g ∧ g ≤ 64 ∧ 1 ≤ l ∧ l ≤ 6 :=
  ⟨by norm_num, by norm_num,
    C1_resolver_total_in_range 42 (by norm_num) (by norm_num)⟩

/-- The 65 arcs of `GATE_RANGES` sorted by start degree: the contiguous
chain from 0° followed by the wrap-tail arc starting at 358.25°. -/
def sortedRanges : List GateArc := tailArcs ++ [wrapArc]

theorem chainedArcsTo_mem_lt {L : List GateArc} :
    ∀ {a b : ℚ}, ChainedArcsTo a b L → ∀ arc ∈ L, arc.2.1 < arc.2.2 := by
  induction L with
  | nil => intro a b _ arc h; cases h
  | cons hd rest ih =>
    intro a b h arc hm
    obtain ⟨hs, hlt, hrest⟩ := h
    rcases List.mem_cons.1 hm with rfl | hm'
    · exact hlt
    · exact ih hrest arc hm'

theorem chainedArcsTo_chain_eq {L : List GateArc} :
    ∀ {a b : ℚ}, ChainedArcsTo a b L →
      List.Chain' (fun A B : GateArc => A.2.2 = B.2.1) L := by
  induction L with
  | nil => intro a b _; exact List.chain'_nil
  | cons hd rest ih =>
    intro a b h
    obtain ⟨hs, hlt, hrest⟩ := h
    cases rest with
    | nil => exact List.chain'_singleton _
    | cons hd2 rest2 => exact List.Chain'.cons hrest.1.symm (ih hrest)

theorem chainedArcsTo_chain_lt {L : List GateArc} :
    ∀ {a b : ℚ}, ChainedArcsTo a b L →
      List.Chain' (fun A B : GateArc => A.2.1 < B.2.1) L := by
  induction L with
  | nil => intro a b _; exact List.chain'_nil
  | cons hd rest ih =>
    intro a b h
    obtain ⟨hs, hlt, hrest⟩ := h
    cases rest with
    | nil => exact List.chain'_singleton _
    | cons hd2 rest2 =>
      refine List.Chain'.cons ?_ (ih hrest)
      rw [hrest.1]
      exact hlt

theorem tailArcs_getLast_eval :
    tailArcs.getLast? = some (36, _d PI 22 27 30, _d PI 28 15 0) := rfl

/-- C2: the 65 arcs of the partition table, sorted by start degree, are
a permutation of `GATE_RANGES` whose starts strictly increase; the first
arc starts at exactly 0°, the last ends at exactly 360°, and each arc's
end degree equals the next arc's start degree (no gap, no overlap). -/
theorem C2_sorted_partition_contiguous :
    sortedRanges.Perm GATE_RANGES ∧
    List.Chain' (fun A B : GateArc => A.2.1 < B.2.1) sortedRanges ∧
    sortedRanges.length = 65 ∧
    (sortedRanges.head?.map fun A => A.2.1) = some 0 ∧
    (sortedRanges.getLast?.map fun A => A.2.2) = some 360 ∧
    List.Chain' (fun A B : GateArc => A.2.2 = B.2.1) sortedRanges := by
  refine ⟨List.perm_append_singleton _ _, ?_, rfl, rfl, ?_, ?_⟩
  · rw [sortedRanges, List.chain'_append]
    refine ⟨chainedArcsTo_chain_lt tailArcs_chained, List.chain'_singleton _, ?_⟩
    intro x hx y hy
    rw [tailArcs_getLast_eval, Option.mem_def, Option.some_inj] at hx
    simp only [List.head?_cons, Option.mem_def, Option.some_inj] at hy
    subst hx
    subst hy
    show _d PI 22 27 30 < _d PI 28 15 0
    norm_num [_d, PI]
  · rw [sortedRanges, List.getLast?_append]
    rfl
  · rw [sortedRanges, List.chain'_append]
    refine ⟨chainedArcsTo_chain_eq tailArcs_chained, List.chain'_singleton _, ?_⟩
    intro x hx y hy
    rw [tailArcs_getLast_eval, Option.mem_def, Option.some_inj] at hx
    simp only [List.head?_cons, Option.mem_def, Option.some_inj] at hy
    subst hx
    subst hy
    rfl

theorem line_at_start {s e : ℚ} (h : s < e) :
    min (max (⌊(s - s) / ((e - s) / 6)⌋ + 1) 1) 6 = 1 := by
  rw [sub_self, zero_div, Int.floor_zero]
  decide

/-- Scanning a chained list at the start degree of its `k`-th arc
returns that arc's gate with line 1. -/
theorem scan_at_start {L : List GateArc} :
    ∀ {a b : ℚ}, ChainedArcsTo a b L → ∀ k (hk : k < L.length),
      scanGateRanges ((L.get ⟨k, hk⟩).2.1) L = some ((L.get ⟨k, hk⟩).1, 1) := by
  induction L with
  | nil => intro a b _ k hk; exact absurd hk (by simp)
  | cons hd rest ih =>
    intro a b h k hk
    obtain ⟨g, s, e⟩ := hd
    obtain ⟨hs, hlt, hrest⟩ := h
    simp only at hs hlt hrest
    cases k with
    | zero =>
      show scanGateRanges s ((g, s, e) :: rest) = some (g, 1)
      rw [scan_cons, if_pos (le_of_lt hlt), if_pos ⟨le_refl s, hlt⟩,
        line_at_start hlt]
    | succ k =>
      show scanGateRanges ((rest.get ⟨k, _⟩).2.1) ((g, s, e) :: rest) = _
      have hv : e ≤ (rest.get ⟨k, Nat.lt_of_succ_lt_succ hk⟩).2.1 :=
        chainedArcsTo_start_le hrest _ (rest.get_mem _ _)
      rw [scan_cons, if_pos (le_of_lt hlt),
        if_neg (fun hand => absurd hand.2 (not_lt.2 hv))]
      exact ih hrest k _

theorem chainedArcsTo_adjacent {L : List GateArc} :
    ∀ {a b : ℚ}, ChainedArcsTo a b L → ∀ k (hk : k + 1 < L.length),
      (L.get ⟨k, Nat.lt_of_succ_lt hk⟩).2.2 = (L.get ⟨k + 1, hk⟩).2.1 := by
  induction L with
  | nil => intro a b _ k hk; exact absurd hk (by simp)
  | cons hd rest ih =>
    intro a b h k hk
    obtain ⟨hs, hlt, hrest⟩ := h
    cases k with
    | zero =>
      cases rest with
      | nil => simp at hk
      | cons hd2 rest2 => simpa using hrest.1.symm
    | succ k => simpa using ih hrest k (by simpa using hk)

/-- C6: a longitude lying exactly on the shared boundary of two adjacent
arcs (the end of arc `i` in sorted order, which equals the start of arc
`i+1`) resolves to the *later* arc's gate with line 1 — membership is
the half-open test `start <= lon < end`, so the earlier arc never claims
its own end degree. -/
theorem C6_boundary_resolves_to_next_gate (i : ℕ) (h : i + 1 < sortedRanges.length) :
    (sortedRanges.get ⟨i, Nat.lt_of_succ_lt h⟩).2.2 =
      (sortedRanges.get ⟨i + 1, h⟩).2.1 ∧
    gate_line_from_longitude ((sortedRanges.get ⟨i, Nat.lt_of_succ_lt h⟩).2.2) =
      some ((sortedRanges.get ⟨i + 1, h⟩).1, 1) := by
  have hwrap_le : _d PI 28 15 0 ≤ (360 : ℚ) := by norm_num [_d, PI]
  have hlen : sortedRanges.length = 65 := rfl
  have htlen : tailArcs.length = 64 := rfl
  rw [hlen] at h
  by_cases hi : i + 1 < 64
  · -- both arcs lie in the contiguous chain `tailArcs`
    have hi0 : i < tailArcs.length := by omega
    have hi1 : i + 1 < tailArcs.length := by omega
    have hgA : sortedRanges.get ⟨i, Nat.lt_of_succ_lt h⟩ = tailArcs.get ⟨i, hi0⟩ :=
      List.get_append i hi0
    have hgB : sortedRanges.get ⟨i + 1, h⟩ = tailArcs.get ⟨i + 1, hi1⟩ :=
      List.get_append (i + 1) hi1
    have hadj : (tailArcs.get ⟨i, hi0⟩).2.2 = (tailArcs.get ⟨i + 1, hi1⟩).2.1 :=
      chainedArcsTo_adjacent tailArcs_chained i hi1
    rw [hgA, hgB, hadj]
    refine ⟨rfl, ?_⟩
    set v := (tailArcs.get ⟨i + 1, hi1⟩).2.1 with hv
    have hmem : tailArcs.get ⟨i + 1, hi1⟩ ∈ tailArcs := tailArcs.get_mem _ _
    have h0 : 0 ≤ v := chainedArcsTo_start_le tailArcs_chained _ hmem
    have hvb : v < _d PI 28 15 0 :=
      lt_of_lt_of_le (chainedArcsTo_mem_lt tailArcs_chained _ hmem)
        (chainedArcsTo_end_le tailArcs_chained _ hmem)
    have h1 : v < 360 := lt_of_lt_of_le hvb hwrap_le
    have hnand : ¬(_d PI 28 15 0 ≤ v ∧ v < 360) := fun hand =>
      absurd hand.1 (not_le.2 hvb)
    unfold gate_line_from_longitude
    rw [norm360_eq_self h0 h1, GATE_RANGES_eq, scan_cons, if_pos hwrap_le,
      if_neg hnand]
    exact scan_at_start tailArcs_chained (i + 1) hi1
  · -- the later arc is the wrap-tail arc starting at 358.25°
    have hi63 : i = 63 := by omega
    subst hi63
    have hA : sortedRanges.get ⟨63, Nat.lt_of_succ_lt h⟩ =
        (36, _d PI 22 27 30, _d PI 28 15 0) := rfl
    have hB : sortedRanges.get ⟨64, h⟩ = wrapArc := rfl
    rw [hA, hB]
    refine ⟨rfl, ?_⟩
    show gate_line_from_longitude (_d PI 28 15 0) = some (25, 1)
    have h0 : (0 : ℚ) ≤ _d PI 28 15 0 := by norm_num [_d, PI]
    have h1 : _d PI 28 15 0 < (360 : ℚ) := by norm_num [_d, PI]
    unfold gate_line_from_longitude
    rw [norm360_eq_self h0 h1, GATE_RANGES_eq, scan_cons, if_pos hwrap_le,
      if_pos ⟨le_refl _, h1⟩, line_at_start h1]

/-- Witness for C6 at the first adjacent pair: the boundary 3°52'30"
Aries belongs to gate 17 (line 1), not to gate 25. -/
theorem C6_witness : 0 + 1 < sortedRanges.length ∧
    ((sortedRanges.get ⟨0, by decide⟩).2.2 =
        (sortedRanges.get ⟨0 + 1, by decide⟩).2.1 ∧
      gate_line_from_longitude ((sortedRanges.get ⟨0, by decide⟩).2.2) =
        some ((sortedRanges.get ⟨0 + 1, by decide⟩).1, 1)) :=
  ⟨by decide, C6_boundary_resolves_to_next_gate 0 (by decide)⟩

/-- C8: gate 25, whose zodiacal span crosses the 0°/360° boundary, is
represented as two separate arcs — a tail arc ending at exactly 360° and
a head arc starting at exactly 0°, both labeled 25; these are the only
arcs touching the seam, and no arc of the table has its start degree
greater than its end degree. -/
theorem C8_wraparound_split :
    (25, _d PI 28 15 0, 360) ∈ GATE_RANGES ∧
    (25, 0, _d AR 3 52 30) ∈ GATE_RANGES ∧
    (GATE_RANGES.map fun a => a.1).count 25 = 2 ∧
    (∀ arc ∈ GATE_RANGES, arc.2.2 = 360 → arc = (25, _d PI 28 15 0, 360)) ∧
    (∀ arc ∈ GATE_RANGES, arc.2.1 = 0 → arc = (25, 0, _d AR 3 52 30)) ∧
    (∀ arc ∈ GATE_RANGES, arc.2.1 ≤ arc.2.2) := by
  have hchain := tailArcs_chained
  have hcons : ChainedArcsTo 0 (_d PI 28 15 0)
      ((25, 0, _d AR 3 52 30) :: tailArcs.tail) := hchain
  obtain ⟨hs0, hlt0, hrest⟩ := hcons
  refine ⟨List.mem_cons_self _ _,
    List.mem_cons_of_mem _ (List.mem_cons_self _ _), ?_, ?_, ?_, ?_⟩
  · rw [gate_numbers_eval]
    decide
  · intro arc hm h360
    rcases List.mem_cons.1 hm with rfl | hm'
    · rfl
    · exact absurd (h360 ▸ chainedArcsTo_end_le hchain arc hm')
        (by norm_num [_d, PI])
  · intro arc hm hstart
    rcases List.mem_cons.1 hm with rfl | hm'
    · exact absurd hstart (by norm_num [wrapArc, _d, PI])
    · have hm2 : arc ∈ (25, 0, _d AR 3 52 30) :: tailArcs.tail := hm'
      rcases List.mem_cons.1 hm2 with rfl | hm3
      · rfl
      · exact absurd (hstart ▸ chainedArcsTo_start_le hrest arc hm3)
          (by norm_num [_d, AR])
  · intro arc hm
    rcases List.mem_cons.1 hm with rfl | hm'
    · show _d PI 28 15 0 ≤ (360 : ℚ)
      norm_num [_d, PI]
    · exact le_of_lt (chainedArcsTo_mem_lt hchain arc hm')

/-- Swiss Ephemeris body constants (`pyswisseph`). -/
def swe_SUN : ℤ := 0
def swe_MOON : ℤ := 1
def swe_MERCURY : ℤ := 2
def swe_VENUS : ℤ := 3
def swe_MARS : ℤ := 4
def swe_JUPITER : ℤ := 5
def swe_SATURN : ℤ := 6
def swe_URANUS : ℤ := 7
def swe_NEPTUNE : ℤ := 8
def swe_PLUTO : ℤ := 9
def swe_TRUE_NODE : ℤ := 11
def swe_EARTH : ℤ := 14

/-- The ephemeris provider, external to the repository: a Julian Day
(UT) and a body number give the raw `(longitude, speed)` pair returned
by `swe.calc_ut`. -/
abbrev Ephemeris := ℚ → ℤ → ℚ × ℚ

/-- Embedding of `calc_lon_ut` from `original_calculation.py`: normalized longitude
and speed of a body at a Julian Day. -/
def calc_lon_ut (swe : Ephemeris) (jd_ut : ℚ) (body : ℤ) : ℚ × ℚ :=
  (_norm360 (swe jd_ut body).1, (swe jd_ut body).2)

/-- The `for _ in range(20)` loop of `find_design_jd` (identically, the
loop of `BirthInfo.design_jd_ut`), as a fuel recursion: check the
wrapped error, stop below 1e-6, otherwise step by `-err / speed` with
0.9856°/day substituted for a zero speed. -/
def designIter (swe : Ephemeris) (target : ℚ) : ℕ → ℚ → ℚ
  | 0, jd => jd
  | n + 1, jd =>
    if |_angdiff_signed (calc_lon_ut swe jd swe_SUN).1 target| < 1e-6 then jd
    else designIter swe target n
      (jd - _angdiff_signed (calc_lon_ut swe jd swe_SUN).1 target /
        (if (calc_lon_ut swe jd swe_SUN).2 ≠ 0 then (calc_lon_ut swe jd swe_SUN).2
         else 0.9856))

/-- Embedding of `find_design_jd` from `original_calculation.py` (the same algorithm
as `BirthInfo.design_jd_ut`): target `(birth_sun_lon - 88) % 360`,
initial guess `birth_jd - 88.0`, 20 Newton-style iterations. -/
def find_design_jd (swe : Ephemeris) (birth_jd birth_sun_lon : ℚ) : ℚ :=
  designIter swe (_norm360 (birth_sun_lon - 88)) 20 (birth_jd - 88)

/-- Modelled from the spec (§4.4, C4's wording) rather than the code:
one solver iteration queries the provider's Sun longitude `lon` and
speed, computes the signed error `((lon - target + 180) mod 360) - 180`,
stops when `|error| < 1e-6`, and otherwise updates the guess by
`-error / speed`, substituting the constant 0.9856°/day when the speed
is exactly zero. -/
def solveDesignJDSpecIter (swe : Ephemeris) (target : ℚ) : ℕ → ℚ → ℚ
  | 0, jd => jd
  | n + 1, jd =>
    let lon := (swe jd swe_SUN).1
    let speed := (swe jd swe_SUN).2
    let error := pymod (lon - target + 180) 360 - 180
    if |error| < 1e-6 then jd
    else solveDesignJDSpecIter swe target n
      (jd - error / (if speed = 0 then 0.9856 else speed))

/-- Modelled from the spec (§4.4, C4's wording): the design-time solver
targets `(birthSunLon - 88) mod 360` starting from `birthJD - 88.0`,
with a hard cap of 20 iterations. -/
def solveDesignJDSpec (swe : Ephemeris) (birthJD birthSunLon : ℚ) : ℚ :=
  solveDesignJDSpecIter swe (pymod (birthSunLon - 88) 360) 20 (birthJD - 88)

theorem designIter_eq_specIter (swe : Ephemeris) (target : ℚ) :
    ∀ (n : ℕ) (jd : ℚ),
      designIter swe target n jd = solveDesignJDSpecIter swe target n jd := by
  intro n
  induction n with
  | zero => intro jd; rfl
  | succ n ih =>
    intro jd
    have herr : _angdiff_signed (calc_lon_ut swe jd swe_SUN).1 target =
        pymod ((swe jd swe_SUN).1 - target + 180) 360 - 180 :=
      angdiff_norm360_left _ _
    have hspeed : (if (calc_lon_ut swe jd swe_SUN).2 ≠ 0
          then (calc_lon_ut swe jd swe_SUN).2 else (0.9856 : ℚ)) =
        (if (swe jd swe_SUN).2 = 0 then (0.9856 : ℚ) else (swe jd swe_SUN).2) := by
      show (if (swe jd swe_SUN).2 ≠ 0 then (swe jd swe_SUN).2 else (0.9856 : ℚ)) = _
      by_cases hz : (swe jd swe_SUN).2 = 0
      · rw [if_neg (not_not_intro hz), if_pos hz]
      · rw [if_pos hz, if_neg hz]
    simp only [designIter, solveDesignJDSpecIter]
    rw [herr, hspeed, ih]

/-- C4: the design-time solver targets `(birthSunLon - 88) mod 360`,
starts from `birthJD - 88.0`, and on each non-converged iteration
computes the signed error `((lon - target + 180) mod 360) - 180` and
steps the Julian Day by `-error / speed`, substituting 0.9856°/day when
the speed is exactly zero: the code refines the spec's algorithm for
every ephemeris provider and input. -/
theorem C4_solver_refines_spec (swe : Ephemeris) (birth_jd birth_sun_lon : ℚ) :
    find_design_jd swe birth_jd birth_sun_lon =
      solveDesignJDSpec swe birth_jd birth_sun_lon :=
  designIter_eq_specIter swe _ 20 _

/-- One Newton step of the design solver. -/
def designStep (swe : Ephemeris) (target jd : ℚ) : ℚ :=
  jd - _angdiff_signed (calc_lon_ut swe jd swe_SUN).1 target /
    (if (calc_lon_ut swe jd swe_SUN).2 ≠ 0 then (calc_lon_ut swe jd swe_SUN).2
     else 0.9856)

/-- The solver's convergence test at a guess. -/
def errSmall (swe : Ephemeris) (target jd : ℚ) : Prop :=
  |_angdiff_signed (calc_lon_ut swe jd swe_SUN).1 target| < 1e-6

theorem designIter_succ_eq (swe : Ephemeris) (target : ℚ) (n : ℕ) (jd : ℚ) :
    designIter swe target (n + 1) jd =
      if |_angdiff_signed (calc_lon_ut swe jd swe_SUN).1 target| < 1e-6 then jd
      else designIter swe target n (designStep swe target jd) := rfl

/-- The solver's run is fully characterised by the step function: the
result is the `k`-th iterate for some `k ≤ n`, where either convergence
(`|error| < 1e-6`) first occurred at iterate `k`, or no iterate before
the cap converged and `k = n`. -/
theorem designIter_runs (swe : Ephemeris) (target : ℚ) :
    ∀ (n : ℕ) (jd : ℚ), ∃ k, k ≤ n ∧
      designIter swe target n jd = (designStep swe target)^[k] jd ∧
      ((errSmall swe target ((designStep swe target)^[k] jd) ∧
          ∀ j, j < k → ¬errSmall swe target ((designStep swe target)^[j] jd)) ∨
        (k = n ∧ ∀ j, j < n →
          ¬errSmall swe target ((designStep swe target)^[j] jd))) := by
  intro n
  induction n with
  | zero =>
    intro jd
    exact ⟨0, le_refl 0, rfl,
      Or.inr ⟨rfl, fun j hj => absurd hj (Nat.not_lt_zero j)⟩⟩
  | succ n ih =>
    intro jd
    by_cases hsm : errSmall swe target jd
    · have hsm' : |_angdiff_signed (calc_lon_ut swe jd swe_SUN).1 target| < 1e-6 := hsm
      refine ⟨0, Nat.zero_le _, ?_,
        Or.inl ⟨hsm, fun j hj => absurd hj (Nat.not_lt_zero j)⟩⟩
      rw [designIter_succ_eq, if_pos hsm']
      rfl
    · have hsm' : ¬|_angdiff_signed (calc_lon_ut swe jd swe_SUN).1 target| < 1e-6 := hsm
      obtain ⟨k, hk, heq, hcase⟩ := ih (designStep swe target jd)
      have hshift : ∀ j, (designStep swe target)^[j] (designStep swe target jd) =
          (designStep swe target)^[j + 1] jd := fun j =>
        (Function.iterate_succ_apply _ j jd).symm
      refine ⟨k + 1, Nat.succ_le_succ hk, ?_, ?_⟩
      · rw [designIter_succ_eq, if_neg hsm', heq, hshift]
      · rcases hcase with ⟨hsm2, hmin⟩ | ⟨hkn, hall⟩
        · left
          refine ⟨by rw [← hshift]; exact hsm2, ?_⟩
          intro j hj
          cases j with
          | zero => simpa using hsm
          | succ j =>
            rw [← hshift]
            exact hmin j (by omega)
        · right
          refine ⟨by omega, ?_⟩
          intro j hj
          cases j with
          | zero => simpa using hsm
          | succ j =>
            rw [← hshift]
            exact hall j (by omega)

/-- C5: for every ephemeris provider and input, the design-time solver
performs at most 20 Newton steps, stops at the first iterate whose
wrapped error is below 1e-6 degrees, and otherwise returns its 20th
(last) guess — it never fails on non-convergence. -/
theorem C5_solver_at_most_20_steps (swe : Ephemeris) (birth_jd birth_sun_lon : ℚ) :
    ∃ k, k ≤ 20 ∧
      find_design_jd swe birth_jd birth_sun_lon =
        (designStep swe (_norm360 (birth_sun_lon - 88)))^[k] (birth_jd - 88) ∧
      ((errSmall swe (_norm360 (birth_sun_lon - 88))
            ((designStep swe (_norm360 (birth_sun_lon - 88)))^[k] (birth_jd - 88)) ∧
          ∀ j, j < k → ¬errSmall swe (_norm360 (birth_sun_lon - 88))
            ((designStep swe (_norm360 (birth_sun_lon - 88)))^[j] (birth_jd - 88))) ∨
        (k = 20 ∧ ∀ j, j < 20 → ¬errSmall swe (_norm360 (birth_sun_lon - 88))
            ((designStep swe (_norm360 (birth_sun_lon - 88)))^[j] (birth_jd - 88)))) :=
  designIter_runs swe _ 20 _

/-- The `Planet` enum from `models/core.py`.  In the source,
`NORTH_NODE = swe.TRUE_NODE` re-uses `TRUE_NODE`'s value, so Python
makes it an alias rather than a fourteenth member: iterating over
`Planet` yields exactly the 13 canonical members below, in declaration
order. -/
inductive Planet where
  | SUN
  | EARTH
  | MOON
  | MERCURY
  | VENUS
  | MARS
  | JUPITER
  | SATURN
  | URANUS
  | NEPTUNE
  | PLUTO
  | TRUE_NODE
  | SOUTH_NODE
deriving DecidableEq, Repr

/-- The Swiss Ephemeris constant carried by each member; `SOUTH_NODE`
carries the sentinel 999. -/
def Planet.value : Planet → ℤ
  | .SUN => swe_SUN
  | .EARTH => swe_EARTH
  | .MOON => swe_MOON
  | .MERCURY => swe_MERCURY
  | .VENUS => swe_VENUS
  | .MARS => swe_MARS
  | .JUPITER => swe_JUPITER
  | .SATURN => swe_SATURN
  | .URANUS => swe_URANUS
  | .NEPTUNE => swe_NEPTUNE
  | .PLUTO => swe_PLUTO
  | .TRUE_NODE => swe_TRUE_NODE
  | .SOUTH_NODE => 999

/-- The name `Planet.NORTH_NODE` is an alias of `TRUE_NODE` (same enum value). -/
def Planet.NORTH_NODE : Planet := Planet.TRUE_NODE

/-- The iteration order of `for planet in Planet`. -/
def Planet.members : List Planet :=
  [.SUN, .EARTH, .MOON, .MERCURY, .VENUS, .MARS, .JUPITER, .SATURN,
   .URANUS, .NEPTUNE, .PLUTO, .TRUE_NODE, .SOUTH_NODE]

/-- Embedding of `Planet.lon_ut` from `models/core.py`: raises `ValueError` (`none`)
for `SOUTH_NODE` before any ephemeris call; otherwise queries
`swe.calc_ut` with the member's value and returns `lon % 360.0`. -/
def Planet.lon_ut (swe : Ephemeris) (p : Planet) (jd_ut : ℚ) : Option ℚ :=
  if p = Planet.SOUTH_NODE then none
  else some (pymod (swe jd_ut p.value).1 360)

/-- C10: `Planet.lon_ut` raises `ValueError` for `SOUTH_NODE` at every
Julian Day, so the sentinel 999 is never passed to the ephemeris
provider; for every other member it returns the provider longitude of
the member's (non-sentinel) body constant normalized into `[0, 360)`. -/
theorem C10_south_node_raises (swe : Ephemeris) (jd : ℚ) :
    Planet.lon_ut swe Planet.SOUTH_NODE jd = none ∧
    ∀ p : Planet, p ≠ Planet.SOUTH_NODE →
      Planet.lon_ut swe p jd = some (pymod (swe jd p.value).1 360) ∧
      p.value ≠ 999 ∧
      0 ≤ pymod (swe jd p.value).1 360 ∧ pymod (swe jd p.value).1 360 < 360 := by
  refine ⟨rfl, ?_⟩
  intro p hp
  refine ⟨by rw [Planet.lon_ut, if_neg hp], ?_,
    pymod_nonneg _ (by norm_num), pymod_lt _ (by norm_num)⟩
  cases p
  case SOUTH_NODE => exact absurd rfl hp
  all_goals decide

/-- Witness for C10: the Moon is not the South Node, and its longitude
query normalizes the raw value 7 to 7 ∈ [0, 360). -/
theorem C10_witness : Planet.MOON ≠ Planet.SOUTH_NODE ∧
    (Planet.lon_ut (fun _ _ => (7, 1)) Planet.SOUTH_NODE 0 = none ∧
      Planet.lon_ut (fun _ _ => (7, 1)) Planet.MOON 0 =
        some (pymod ((fun _ _ => ((7 : ℚ), (1 : ℚ))) 0 Planet.MOON.value).1 360) ∧
      Planet.MOON.value ≠ 999 ∧
      0 ≤ pymod ((fun _ _ => ((7 : ℚ), (1 : ℚ))) 0 Planet.MOON.value).1 360 ∧
      pymod ((fun _ _ => ((7 : ℚ), (1 : ℚ))) 0 Planet.MOON.value).1 360 < 360) :=
  ⟨by decide,
    (C10_south_node_raises (fun _ _ => (7, 1)) 0).1,
    (C10_south_node_raises (fun _ _ => (7, 1)) 0).2 Planet.MOON (by decide)⟩

/-- Embedding of `Activation` from `original_calculation.py`. -/
structure Activation where
  planet : String
  longitude : ℚ
  gate : ℕ
  line : ℤ
deriving Repr

/-- The `planets` list of `activations_for_jd` — note that it contains
`("Earth", swe.EARTH)` even though Earth is also derived from the Sun. -/
def planetsList : List (String × ℤ) :=
  [("Sun", swe_SUN), ("Earth", swe_EARTH), ("Moon", swe_MOON),
   ("Mercury", swe_MERCURY), ("Venus", swe_VENUS), ("Mars", swe_MARS),
   ("Jupiter", swe_JUPITER), ("Saturn", swe_SATURN), ("Uranus", swe_URANUS),
   ("Neptune", swe_NEPTUNE), ("Pluto", swe_PLUTO), ("TrueNode", swe_TRUE_NODE)]

/-- The `order` dict of `activations_for_jd`, with the `.get(planet,
999)` default. -/
def orderKey (p : String) : ℕ :=
  if p = "Sun" then 0
  else if p = "Earth" then 1
  else if p = "Moon" then 2
  else if p = "TrueNode" then 3
  else if p = "SouthNode" then 4
  else if p = "Mercury" then 5
  else if p = "Venus" then 6
  else if p = "Mars" then 7
  else if p = "Jupiter" then 8
  else if p = "Saturn" then 9
  else if p = "Uranus" then 10
  else if p = "Neptune" then 11
  else if p = "Pluto" then 12
  else 999

/-- Stable insertion: `x` goes in front of the first element whose key
is at least `key x`, so equal keys keep their original relative order. -/
def insertByKey {α : Type} (key : α → ℕ) (x : α) : List α → List α
  | [] => [x]
  | y :: ys => if key x ≤ key y then x :: y :: ys else y :: insertByKey key x ys

/-- Stable sort by key (insertion sort), modelling Python's stable
`list.sort(key=...)`. -/
def sortByKey {α : Type} (key : α → ℕ) (l : List α) : List α :=
  l.foldr (insertByKey key) []

/-- The `for name, body in planets` loop of `activations_for_jd`: only
the entry named "Sun" is skipped, every other body — Earth included —
is queried from the ephemeris and resolved. -/
def appendPlanetActs (swe : Ephemeris) (jd_ut : ℚ) :
    List (String × ℤ) → List Activation → Option (List Activation)
  | [], out => some out
  | (name, body) :: rest, out =>
    if name = "Sun" then appendPlanetActs swe jd_ut rest out
    else
      match gate_line_from_longitude (calc_lon_ut swe jd_ut body).1 with
      | none => none
      | some (g, l) =>
        appendPlanetActs swe jd_ut rest
          (out ++ [⟨name, (calc_lon_ut swe jd_ut body).1, g, l⟩])

/-- Embedding of `activations_for_jd` from `original_calculation.py`: Sun, derived
Earth (Sun + 180°), the planet loop, derived South Node (first TrueNode
entry + 180°), then the stable sort by the `order` dict. -/
def activations_for_jd (swe : Ephemeris) (jd_ut : ℚ) : Option (List Activation) :=
  match gate_line_from_longitude (calc_lon_ut swe jd_ut swe_SUN).1 with
  | none => none
  | some (sg, sl) =>
    let sun_lon := (calc_lon_ut swe jd_ut swe_SUN).1
    let earth_lon := _norm360 (sun_lon + 180)
    match gate_line_from_longitude earth_lon with
    | none => none
    | some (eg, el) =>
      match appendPlanetActs swe jd_ut planetsList
          [⟨"Sun", sun_lon, sg, sl⟩, ⟨"Earth", earth_lon, eg, el⟩] with
      | none => none
      | some out =>
        match out.find? (fun a => a.planet == "TrueNode") with
        | some act =>
          let sn_lon := _norm360 (act.longitude + 180)
          match gate_line_from_longitude sn_lon with
          | none => none
          | some (ng, nl) =>
            some (sortByKey (fun a => orderKey a.planet)
              (out ++ [⟨"SouthNode", sn_lon, ng, nl⟩]))
        | none => some (sortByKey (fun a => orderKey a.planet) out)

/-- Embedding of `RawActivation` from `models/bodygraph.py` (planet, gate, line — no
longitude field). -/
structure RawActivation where
  planet : Planet
  gate : ℕ
  line : ℤ
deriving DecidableEq, Repr

/-- The `for planet in Planet` loop of
`RawBodyGraph._activations_for_jd`, skipping SUN, EARTH and SOUTH_NODE. -/
def rawPlanetActs (resolve : ℚ → Option (ℕ × ℤ)) (swe : Ephemeris) (jd_ut : ℚ) :
    List Planet → List RawActivation → Option (List RawActivation)
  | [], acts => some acts
  | p :: rest, acts =>
    if p = Planet.SUN ∨ p = Planet.EARTH ∨ p = Planet.SOUTH_NODE then
      rawPlanetActs resolve swe jd_ut rest acts
    else
      match Planet.lon_ut swe p jd_ut with
      | none => none
      | some lon =>
        match resolve lon with
        | none => none
        | some (g, l) => rawPlanetActs resolve swe jd_ut rest (acts ++ [⟨p, g, l⟩])

/-- Embedding of `RawBodyGraph._activations_for_jd` from `models/bodygraph.py`,
parametrised by the resolver obtained from `BodyGraphDefinition.load()`
(whose algorithm is `gate_and_line_from_longitude`).  Note: the list is
returned in computation order — there is no sorting step. -/
def rawActivationsForJD (resolve : ℚ → Option (ℕ × ℤ)) (swe : Ephemeris)
    (jd_ut : ℚ) : Option (List RawActivation) :=
  match Planet.lon_ut swe Planet.SUN jd_ut with
  | none => none
  | some sun_lon =>
    match resolve sun_lon with
    | none => none
    | some (sg, sl) =>
      let earth_lon := pymod (sun_lon + 180) 360
      match resolve earth_lon with
      | none => none
      | some (eg, el) =>
        match rawPlanetActs resolve swe jd_ut Planet.members
            [⟨Planet.SUN, sg, sl⟩, ⟨Planet.EARTH, eg, el⟩] with
        | none => none
        | some acts =>
          match Planet.lon_ut swe Planet.NORTH_NODE jd_ut with
          | none => none
          | some nn_lon =>
            let sn_lon := pymod (nn_lon + 180) 360
            match resolve sn_lon with
            | none => none
            | some (ng, nl) => some (acts ++ [⟨Planet.SOUTH_NODE, ng, nl⟩])

set_option maxHeartbeats 4000000 in
/-- Concrete resolver value: 0° is in gate 25's head arc, line 1. -/
theorem resolve_zero : gate_line_from_longitude 0 = some (25, 1) := by
  have hz : _norm360 (0 : ℚ) = 0 := norm360_eq_self (le_refl 0) (by norm_num)
  unfold gate_line_from_longitude
  rw [hz]
  norm_num [GATE_RANGES, wrapArc, tailArcs, scanGateRanges, _d, AR, TA, GE, CA,
    LE, VI, LI, SC, SG, CP, AQ, PI]

set_option maxHeartbeats 4000000 in
/-- Concrete resolver value: 180° is in gate 46's arc, line 2. -/
theorem resolve_180 : gate_line_from_longitude 180 = some (46, 2) := by
  have hz : _norm360 (180 : ℚ) = 180 := norm360_eq_self (by norm_num) (by norm_num)
  unfold gate_line_from_longitude
  rw [hz]
  norm_num [GATE_RANGES, wrapArc, tailArcs, scanGateRanges, _d, AR, TA, GE, CA,
    LE, VI, LI, SC, SG, CP, AQ, PI]

set_option maxHeartbeats 4000000 in
/-- Concrete resolver value: 100° is in gate 39's arc, line 1. -/
theorem resolve_100 : gate_line_from_longitude 100 = some (39, 1) := by
  have hz : _norm360 (100 : ℚ) = 100 := norm360_eq_self (by norm_num) (by norm_num)
  unfold gate_line_from_longitude
  rw [hz]
  norm_num [GATE_RANGES, wrapArc, tailArcs, scanGateRanges, _d, AR, TA, GE, CA,
    LE, VI, LI, SC, SG, CP, AQ, PI]

set_option maxHeartbeats 4000000 in
/-- C3: evaluating both activation-set builders on a concrete ephemeris
(every body at raw longitude 0°, speed 1°/day, Julian Day 0):
`original_calculation.activations_for_jd` returns 14 activations — Earth
appears twice, once derived from the Sun and once queried from the
provider, because the planet loop skips only "Sun" — while
`RawBodyGraph._activations_for_jd` returns 13 activations but in
computation order, ending with TrueNode and SouthNode, which differs
from the canonical order claimed (Sun, Earth, Moon, TrueNode, SouthNode,
Mercury, …, Pluto). -/
theorem C3_builders_violate_count_and_order :
    Option.map (List.map fun a => a.planet) (activations_for_jd (fun _ _ => (0, 1)) 0) =
      some ["Sun", "Earth", "Earth", "Moon", "TrueNode", "SouthNode", "Mercury",
        "Venus", "Mars", "Jupiter", "Saturn", "Uranus", "Neptune", "Pluto"] ∧
    Option.map List.length (activations_for_jd (fun _ _ => (0, 1)) 0) = some 14 ∧
    Option.map (List.map fun a => a.planet)
        (rawActivationsForJD gate_line_from_longitude (fun _ _ => (0, 1)) 0) =
      some [Planet.SUN, Planet.EARTH, Planet.MOON, Planet.MERCURY, Planet.VENUS,
        Planet.MARS, Planet.JUPITER, Planet.SATURN, Planet.URANUS, Planet.NEPTUNE,
        Planet.PLUTO, Planet.TRUE_NODE, Planet.SOUTH_NODE] ∧
    Option.map List.length
        (rawActivationsForJD gate_line_from_longitude (fun _ _ => (0, 1)) 0) =
      some 13 ∧
    [Planet.SUN, Planet.EARTH, Planet.MOON, Planet.MERCURY, Planet.VENUS,
        Planet.MARS, Planet.JUPITER, Planet.SATURN, Planet.URANUS, Planet.NEPTUNE,
        Planet.PLUTO, Planet.TRUE_NODE, Planet.SOUTH_NODE] ≠
      [Planet.SUN, Planet.EARTH, Planet.MOON, Planet.TRUE_NODE, Planet.SOUTH_NODE,
        Planet.MERCURY, Planet.VENUS, Planet.MARS, Planet.JUPITER, Planet.SATURN,
        Planet.URANUS, Planet.NEPTUNE, Planet.PLUTO] := by
  have hz : _norm360 (0 : ℚ) = 0 := norm360_eq_self (le_refl 0) (by norm_num)
  have h180 : _norm360 (180 : ℚ) = 180 := norm360_eq_self (by norm_num) (by norm_num)
  have hpz : pymod (0 : ℚ) 360 = 0 := pymod_eq_self (le_refl 0) (by norm_num)
  have hp180 : pymod (180 : ℚ) 360 = 180 := pymod_eq_self (by norm_num) (by norm_num)
  refine ⟨?_, ?_, ?_, ?_, by decide⟩ <;>
  simp [activations_for_jd, appendPlanetActs, planetsList, calc_lon_ut,
    rawActivationsForJD, rawPlanetActs, Planet.members, Planet.lon_ut,
    Planet.value, Planet.NORTH_NODE, hz, h180, hpz, hp180,
    resolve_zero, resolve_180, sortByKey, insertByKey, orderKey,
    swe_SUN, swe_EARTH, swe_MOON, swe_MERCURY, swe_VENUS, swe_MARS, swe_JUPITER,
    swe_SATURN, swe_URANUS, swe_NEPTUNE, swe_PLUTO, swe_TRUE_NODE]

set_option maxHeartbeats 4000000 in
/-- Counterexample for C7: two ephemeris providers that differ only in
the Earth entry (body 14) give different outputs of
`original_calculation.activations_for_jd` — the builder does query the
provider for Earth (its loop skips only "Sun"), contradicting the
claim's "without querying the ephemeris provider for Earth". -/
theorem C7_counterexample_earth_is_queried :
    Option.map (List.map fun a => a.gate) (activations_for_jd (fun _ _ => (0, 1)) 0) ≠
      Option.map (List.map fun a => a.gate)
        (activations_for_jd (fun _ b => if b = swe_EARTH then (100, 1) else (0, 1)) 0) := by
  have hz : _norm360 (0 : ℚ) = 0 := norm360_eq_self (le_refl 0) (by norm_num)
  have h180 : _norm360 (180 : ℚ) = 180 := norm360_eq_self (by norm_num) (by norm_num)
  have h100 : _norm360 (100 : ℚ) = 100 := norm360_eq_self (by norm_num) (by norm_num)
  simp [activations_for_jd, appendPlanetActs, planetsList, calc_lon_ut,
    hz, h180, h100, resolve_zero, resolve_180, resolve_100,
    sortByKey, insertByKey, orderKey,
    swe_SUN, swe_EARTH, swe_MOON, swe_MERCURY, swe_VENUS, swe_MARS, swe_JUPITER,
    swe_SATURN, swe_URANUS, swe_NEPTUNE, swe_PLUTO, swe_TRUE_NODE]

/-- The derived longitude `(x + 180) mod 360` is exactly 180° away from
`x` on the circle. -/
theorem pymod_opposite (x : ℚ) : pymod (pymod (x + 180) 360 - x) 360 = 180 := by
  have h : pymod (x + 180) 360 - x = 180 + 360 * (-⌊(x + 180) / 360⌋ : ℤ) := by
    unfold pymod
    push_cast
    ring
  rw [h, pymod_add_mul_int]
  exact pymod_eq_self (by norm_num) (by norm_num)

set_option maxHeartbeats 8000000 in
/-- C7 (amended): `RawBodyGraph._activations_for_jd` derives Earth's
longitude as `(sunLongitude + 180) mod 360` and South Node's as
`(northNodeLongitude + 180) mod 360`, and never queries the ephemeris
provider for Earth (body 14) or the South Node sentinel (999) — its
output is invariant under any change of the provider at those bodies;
derived pairs are exactly 180° apart.
`original_calculation.activations_for_jd` likewise derives its first
Earth entry and its SouthNode entry by the same formulas (but, per the
counterexample, additionally queries the provider for Earth). -/
theorem C7_amended_derived_oppositions :
    (∀ (resolve : ℚ → Option (ℕ × ℤ)) (swe swe' : Ephemeris) (jd : ℚ),
      (∀ t b, b ≠ swe_EARTH → b ≠ 999 → swe t b = swe' t b) →
      rawActivationsForJD resolve swe jd = rawActivationsForJD resolve swe' jd) ∧
    (∀ (swe : Ephemeris) (jd : ℚ), ∃ acts,
      rawActivationsForJD gate_line_from_longitude swe jd = some acts ∧
      acts.length = 13 ∧
      (∃ eg el, gate_line_from_longitude
          (pymod (pymod (swe jd 0).1 360 + 180) 360) = some (eg, el) ∧
        acts.get? 1 = some ⟨Planet.EARTH, eg, el⟩) ∧
      (∃ ng nl, gate_line_from_longitude
          (pymod (pymod (swe jd 11).1 360 + 180) 360) = some (ng, nl) ∧
        acts.get? 12 = some ⟨Planet.SOUTH_NODE, ng, nl⟩)) ∧
    (∀ x : ℚ, pymod (pymod (x + 180) 360 - x) 360 = 180) ∧
    (∀ (swe : Ephemeris) (jd : ℚ), ∃ acts,
      activations_for_jd swe jd = some acts ∧
      Option.map (fun a => a.longitude) (acts.find? fun a => a.planet == "Earth") =
        some (_norm360 (_norm360 (swe jd 0).1 + 180)) ∧
      Option.map (fun a => a.longitude) (acts.find? fun a => a.planet == "SouthNode") =
        some (_norm360 (_norm360 (swe jd 11).1 + 180))) := by
  refine ⟨?_, ?_, pymod_opposite, ?_⟩
  · intro resolve swe swe' jd h
    have hS : swe jd 0 = swe' jd 0 := h jd 0 (by decide) (by decide)
    have hMo : swe jd 1 = swe' jd 1 := h jd 1 (by decide) (by decide)
    have hMe : swe jd 2 = swe' jd 2 := h jd 2 (by decide) (by decide)
    have hV : swe jd 3 = swe' jd 3 := h jd 3 (by decide) (by decide)
    have hMa : swe jd 4 = swe' jd 4 := h jd 4 (by decide) (by decide)
    have hJ : swe jd 5 = swe' jd 5 := h jd 5 (by decide) (by decide)
    have hSa : swe jd 6 = swe' jd 6 := h jd 6 (by decide) (by decide)
    have hU : swe jd 7 = swe' jd 7 := h jd 7 (by decide) (by decide)
    have hN : swe jd 8 = swe' jd 8 := h jd 8 (by decide) (by decide)
    have hP : swe jd 9 = swe' jd 9 := h jd 9 (by decide) (by decide)
    have hT : swe jd 11 = swe' jd 11 := h jd 11 (by decide) (by decide)
    simp [rawActivationsForJD, rawPlanetActs, Planet.members, Planet.lon_ut,
      Planet.value, Planet.NORTH_NODE,
      swe_SUN, swe_EARTH, swe_MOON, swe_MERCURY, swe_VENUS, swe_MARS,
      swe_JUPITER, swe_SATURN, swe_URANUS, swe_NEPTUNE, swe_PLUTO, swe_TRUE_NODE,
      hS, hMo, hMe, hV, hMa, hJ, hSa, hU, hN, hP, hT]
  · intro swe jd
    obtain ⟨gS, lS, hgS, _, _, _, _⟩ := resolver_total (pymod (swe jd 0).1 360)
    obtain ⟨gE, lE, hgE, _, _, _, _⟩ :=
      resolver_total (pymod (pymod (swe jd 0).1 360 + 180) 360)
    obtain ⟨gMo, lMo, hgMo, _, _, _, _⟩ := resolver_total (pymod (swe jd 1).1 360)
    obtain ⟨gMe, lMe, hgMe, _, _, _, _⟩ := resolver_total (pymod (swe jd 2).1 360)
    obtain ⟨gV, lV, hgV, _, _, _, _⟩ := resolver_total (pymod (swe jd 3).1 360)
    obtain ⟨gMa, lMa, hgMa, _, _, _, _⟩ := resolver_total (pymod (swe jd 4).1 360)
    obtain ⟨gJ, lJ, hgJ, _, _, _, _⟩ := resolver_total (pymod (swe jd 5).1 360)
    obtain ⟨gSa, lSa, hgSa, _, _, _, _⟩ := resolver_total (pymod (swe jd 6).1 360)
    obtain ⟨gU, lU, hgU, _, _, _, _⟩ := resolver_total (pymod (swe jd 7).1 360)
    obtain ⟨gN, lN, hgN, _, _, _, _⟩ := resolver_total (pymod (swe jd 8).1 360)
    obtain ⟨gP, lP, hgP, _, _, _, _⟩ := resolver_total (pymod (swe jd 9).1 360)
    obtain ⟨gT, lT, hgT, _, _, _, _⟩ := resolver_total (pymod (swe jd 11).1 360)
    obtain ⟨gSN, lSN, hgSN, _, _, _, _⟩ :=
      resolver_total (pymod (pymod (swe jd 11).1 360 + 180) 360)
    refine ⟨[⟨Planet.SUN, gS, lS⟩, ⟨Planet.EARTH, gE, lE⟩, ⟨Planet.MOON, gMo, lMo⟩,
      ⟨Planet.MERCURY, gMe, lMe⟩, ⟨Planet.VENUS, gV, lV⟩, ⟨Planet.MARS, gMa, lMa⟩,
      ⟨Planet.JUPITER, gJ, lJ⟩, ⟨Planet.SATURN, gSa, lSa⟩, ⟨Planet.URANUS, gU, lU⟩,
      ⟨Planet.NEPTUNE, gN, lN⟩, ⟨Planet.PLUTO, gP, lP⟩, ⟨Planet.TRUE_NODE, gT, lT⟩,
      ⟨Planet.SOUTH_NODE, gSN, lSN⟩],
      ?_, ?_, ⟨gE, lE, hgE, ?_⟩, ⟨gSN, lSN, hgSN, ?_⟩⟩ <;>
    simp [rawActivationsForJD, rawPlanetActs, Planet.members, Planet.lon_ut,
      Planet.value, Planet.NORTH_NODE,
      swe_SUN, swe_EARTH, swe_MOON, swe_MERCURY, swe_VENUS, swe_MARS,
      swe_JUPITER, swe_SATURN, swe_URANUS, swe_NEPTUNE, swe_PLUTO, swe_TRUE_NODE,
      hgS, hgE, hgMo, hgMe, hgV, hgMa, hgJ, hgSa, hgU, hgN, hgP, hgT, hgSN]
  · intro swe jd
    obtain ⟨gS, lS, hgS, _, _, _, _⟩ := resolver_total (_norm360 (swe jd 0).1)
    obtain ⟨gE, lE, hgE, _, _, _, _⟩ :=
      resolver_total (_norm360 (_norm360 (swe jd 0).1 + 180))
    obtain ⟨gQ, lQ, hgQ, _, _, _, _⟩ := resolver_total (_norm360 (swe jd 14).1)
    obtain ⟨gMo, lMo, hgMo, _, _, _, _⟩ := resolver_total (_norm360 (swe jd 1).1)
    obtain ⟨gMe, lMe, hgMe, _, _, _, _⟩ := resolver_total (_norm360 (swe jd 2).1)
    obtain ⟨gV, lV, hgV, _, _, _, _⟩ := resolver_total (_norm360 (swe jd 3).1)
    obtain ⟨gMa, lMa, hgMa, _, _, _, _⟩ := resolver_total (_norm360 (swe jd 4).1)
    obtain ⟨gJ, lJ, hgJ, _, _, _, _⟩ := resolver_total (_norm360 (swe jd 5).1)
    obtain ⟨gSa, lSa, hgSa, _, _, _, _⟩ := resolver_total (_norm360 (swe jd 6).1)
    obtain ⟨gU, lU, hgU, _, _, _, _⟩ := resolver_total (_norm360 (swe jd 7).1)
    obtain ⟨gN, lN, hgN, _, _, _, _⟩ := resolver_total (_norm360 (swe jd 8).1)
    obtain ⟨gP, lP, hgP, _, _, _, _⟩ := resolver_total (_norm360 (swe jd 9).1)
    obtain ⟨gT, lT, hgT, _, _, _, _⟩ := resolver_total (_norm360 (swe jd 11).1)
    obtain ⟨gSN, lSN, hgSN, _, _, _, _⟩ :=
      resolver_total (_norm360 (_norm360 (swe jd 11).1 + 180))
    refine ⟨[⟨"Sun", _norm360 (swe jd 0).1, gS, lS⟩,
      ⟨"Earth", _norm360 (_norm360 (swe jd 0).1 + 180), gE, lE⟩,
      ⟨"Earth", _norm360 (swe jd 14).1, gQ, lQ⟩,
      ⟨"Moon", _norm360 (swe jd 1).1, gMo, lMo⟩,
      ⟨"TrueNode", _norm360 (swe jd 11).1, gT, lT⟩,
      ⟨"SouthNode", _norm360 (_norm360 (swe jd 11).1 + 180), gSN, lSN⟩,
      ⟨"Mercury", _norm360 (swe jd 2).1, gMe, lMe⟩,
      ⟨"Venus", _norm360 (swe jd 3).1, gV, lV⟩,
      ⟨"Mars", _norm360 (swe jd 4).1, gMa, lMa⟩,
      ⟨"Jupiter", _norm360 (swe jd 5).1, gJ, lJ⟩,
      ⟨"Saturn", _norm360 (swe jd 6).1, gSa, lSa⟩,
      ⟨"Uranus", _norm360 (swe jd 7).1, gU, lU⟩,
      ⟨"Neptune", _norm360 (swe jd 8).1, gN, lN⟩,
      ⟨"Pluto", _norm360 (swe jd 9).1, gP, lP⟩],
      ?_, ?_, ?_⟩ <;>
    simp [activations_for_jd, appendPlanetActs, planetsList, calc_lon_ut,
      sortByKey, insertByKey, orderKey,
      swe_SUN, swe_EARTH, swe_MOON, swe_MERCURY, swe_VENUS, swe_MARS,
      swe_JUPITER, swe_SATURN, swe_URANUS, swe_NEPTUNE, swe_PLUTO, swe_TRUE_NODE,
      hgS, hgE, hgQ, hgMo, hgMe, hgV, hgMa, hgJ, hgSa, hgU, hgN, hgP, hgT, hgSN]

/-- Witness for C7's amended theorem: with a provider pair differing
only in the Earth entry, `RawBodyGraph._activations_for_jd` gives
identical results. -/
theorem C7_witness :
    rawActivationsForJD gate_line_from_longitude (fun _ _ => (0, 1)) 0 =
      rawActivationsForJD gate_line_from_longitude
        (fun _ b => if b = swe_EARTH then (55, 2) else (0, 1)) 0 :=
  C7_amended_derived_oppositions.1 gate_line_from_longitude _ _ 0
    (fun t b hb _ => by simp [hb])

/-- A naive Python `datetime` as held by the pydantic `LocalTime` field:
calendar and clock components.  Python's `datetime` guarantees the field
ranges of `validDateTime` at construction. -/
structure PyDateTime where
  year : ℕ
  month : ℕ
  day : ℕ
  hour : ℕ
  minute : ℕ
  second : ℕ
deriving DecidableEq, Repr

def isLeapYear (y : ℕ) : Bool :=
  (y % 4 == 0 && y % 100 != 0) || y % 400 == 0

def daysInMonth (y m : ℕ) : ℕ :=
  if m = 2 then (if isLeapYear y then 29 else 28)
  else if m = 4 ∨ m = 6 ∨ m = 9 ∨ m = 11 then 30
  else 31

/-- The invariants Python's `datetime` enforces (MINYEAR 1, MAXYEAR
9999). -/
def validDateTime (dt : PyDateTime) : Prop :=
  1 ≤ dt.year ∧ dt.year ≤ 9999 ∧ 1 ≤ dt.month ∧ dt.month ≤ 12 ∧
  1 ≤ dt.day ∧ dt.day ≤ daysInMonth dt.year dt.month ∧
  dt.hour < 24 ∧ dt.minute < 60 ∧ dt.second < 60

instance (dt : PyDateTime) : Decidable (validDateTime dt) := by
  unfold validDateTime
  infer_instance

/-- Embedding of `localtime.strftime("%Y-%m-%d")`: zero-padded decimal fields joined
with hyphens. -/
def strftimeYMD (dt : PyDateTime) : String :=
  String.mk [Nat.digitChar (dt.year / 1000 % 10), Nat.digitChar (dt.year / 100 % 10),
    Nat.digitChar (dt.year / 10 % 10), Nat.digitChar (dt.year % 10), '-',
    Nat.digitChar (dt.month / 10 % 10), Nat.digitChar (dt.month % 10), '-',
    Nat.digitChar (dt.day / 10 % 10), Nat.digitChar (dt.day % 10)]

/-- Parse a zero-padded `YYYY-MM-DD` character list into its numeric
components. -/
def parseYMD : List Char → Option (ℕ × ℕ × ℕ)
  | [y1, y2, y3, y4, h1, m1, m2, h2, d1, d2] =>
    if y1.isDigit && y2.isDigit && y3.isDigit && y4.isDigit && h1 == '-' &&
        m1.isDigit && m2.isDigit && h2 == '-' && d1.isDigit && d2.isDigit then
      some (1000 * (y1.toNat - 48) + 100 * (y2.toNat - 48) +
          10 * (y3.toNat - 48) + (y4.toNat - 48),
        10 * (m1.toNat - 48) + (m2.toNat - 48),
        10 * (d1.toNat - 48) + (d2.toNat - 48))
    else none
  | _ => none

/-- Embedding of `_assert_hyphenated_european_date` from `models/bodygraph.py`:
`datetime.strptime(date_str, "%Y-%m-%d")` must succeed, else a
`ValueError` is raised.  Modelled on zero-padded date strings — the only
ones that can also pass the model validator's exact string comparison
against `strftime` output: ten characters `YYYY-MM-DD` denoting a valid
calendar date. -/
def _assert_hyphenated_european_date (s : String) : Except String String :=
  match parseYMD s.data with
  | some (y, m, d) =>
    if 1 ≤ y ∧ 1 ≤ m ∧ m ≤ 12 ∧ 1 ≤ d ∧ d ≤ daysInMonth y m then Except.ok s
    else Except.error "Date must be in YYYY-MM-DD format"
  | none => Except.error "Date must be in YYYY-MM-DD format"

/-- Embedding of `BirthInfo` from `models/bodygraph.py`: the user-input fields.  All
derived values (place, coordinates, timezone, Julian Days) are lazy
computed properties on top of these. -/
structure BirthInfo where
  date : String
  localtime : PyDateTime
  city : String
  country : String
deriving Repr

/-- Pydantic construction of a `BirthInfo`: the `date` field's
`AfterValidator` (`_assert_hyphenated_european_date`) runs first, then
the `model_validator(mode="after")` `validate_date_matches_localtime`
compares `localtime.strftime("%Y-%m-%d")` with `date` and raises on
mismatch.  Geocoding, timezone lookup and Julian Day computation are
lazy `@property`s in the source, not part of construction, which is why
this constructor takes no geocoder/timezone/ephemeris oracle. -/
def BirthInfo.construct (date : String) (localtime : PyDateTime)
    (city country : String) : Except String BirthInfo :=
  match _assert_hyphenated_european_date date with
  | Except.error e => Except.error e
  | Except.ok date' =>
    let info : BirthInfo := ⟨date', localtime, city, country⟩
    if strftimeYMD info.localtime ≠ info.date then
      Except.error "date must match localtime date"
    else Except.ok info

theorem digitChar_isDigit : ∀ k, k < 10 → (Nat.digitChar k).isDigit = true := by
  decide

theorem digitChar_toNat_sub : ∀ k, k < 10 → (Nat.digitChar k).toNat - 48 = k := by
  decide

/-- On a valid datetime, parsing the `strftime` output recovers the
components. -/
theorem parse_strftime (dt : PyDateTime) (hv : validDateTime dt) :
    parseYMD (strftimeYMD dt).data = some (dt.year, dt.month, dt.day) := by
  obtain ⟨hy1, hy2, hm1, hm2, hd1, hd2, _, _, _⟩ := hv
  have hdata : (strftimeYMD dt).data =
      [Nat.digitChar (dt.year / 1000 % 10), Nat.digitChar (dt.year / 100 % 10),
        Nat.digitChar (dt.year / 10 % 10), Nat.digitChar (dt.year % 10), '-',
        Nat.digitChar (dt.month / 10 % 10), Nat.digitChar (dt.month % 10), '-',
        Nat.digitChar (dt.day / 10 % 10), Nat.digitChar (dt.day % 10)] := rfl
  rw [hdata]
  have hdig : ∀ n : ℕ, (Nat.digitChar (n % 10)).isDigit = true := fun n =>
    digitChar_isDigit _ (Nat.mod_lt n (by norm_num))
  have hrec : ∀ n : ℕ, (Nat.digitChar (n % 10)).toNat - 48 = n % 10 := fun n =>
    digitChar_toNat_sub _ (Nat.mod_lt n (by norm_num))
  simp only [parseYMD, hdig, hrec, Bool.and_true, Bool.true_and,
    beq_self_eq_true, if_true]
  refine congrArg some ?_
  have hy : dt.year ≤ 9999 := hy2
  have hmo : dt.month ≤ 12 := hm2
  have hda : dt.day ≤ daysInMonth dt.year dt.month := hd2
  have hdm31 : daysInMonth dt.year dt.month ≤ 31 := by
    unfold daysInMonth
    split_ifs <;> omega
  have hda31 : dt.day ≤ 31 := le_trans hda hdm31
  refine Prod.ext ?_ (Prod.ext ?_ ?_) <;> simp <;> omega

/-- C9: constructing a `BirthInfo` whose declared `date` field does not
equal the `%Y-%m-%d` rendering of its local time fails with a validation
error at construction time (no geocoding, timezone or Julian Day oracle
is ever consulted — the constructor does not take one); construction
succeeds, returning exactly the input fields, when the two agree. -/
theorem assert_date_ok_eq {s t : String}
    (h : _assert_hyphenated_european_date s = Except.ok t) : t = s := by
  unfold _assert_hyphenated_european_date at h
  split at h
  · split at h
    · cases h
      rfl
    · cases h
  · cases h

theorem C9_date_mismatch_rejected (date : String) (lt : PyDateTime)
    (city country : String) (hv : validDateTime lt) :
    (date = strftimeYMD lt →
      BirthInfo.construct date lt city country =
        Except.ok ⟨date, lt, city, country⟩) ∧
    (date ≠ strftimeYMD lt →
      ∃ msg, BirthInfo.construct date lt city country = Except.error msg) := by
  obtain ⟨hy1, hy2, hm1, hm2, hd1, hd2, hh, hmi, hs⟩ := hv
  constructor
  · intro heq
    subst heq
    have hfmt : _assert_hyphenated_european_date (strftimeYMD lt) =
        Except.ok (strftimeYMD lt) := by
      unfold _assert_hyphenated_european_date
      rw [parse_strftime lt ⟨hy1, hy2, hm1, hm2, hd1, hd2, hh, hmi, hs⟩]
      show (if 1 ≤ lt.year ∧ 1 ≤ lt.month ∧ lt.month ≤ 12 ∧ 1 ≤ lt.day ∧
            lt.day ≤ daysInMonth lt.year lt.month then
          Except.ok (strftimeYMD lt)
        else Except.error "Date must be in YYYY-MM-DD format") = _
      rw [if_pos ⟨hy1, hm1, hm2, hd1, hd2⟩]
    unfold BirthInfo.construct
    rw [hfmt]
    show (if strftimeYMD lt ≠ strftimeYMD lt then
        Except.error "date must match localtime date"
      else Except.ok (BirthInfo.mk (strftimeYMD lt) lt city country)) = _
    rw [if_neg (fun hcon => hcon rfl)]
  · intro hne
    unfold BirthInfo.construct
    cases hp : _assert_hyphenated_european_date date with
    | error e => exact ⟨e, rfl⟩
    | ok d' =>
      have hd' : d' = date := assert_date_ok_eq hp
      subst hd'
      refine ⟨"date must match localtime date", ?_⟩
      show (if strftimeYMD lt ≠ d' then
          Except.error "date must match localtime date"
        else Except.ok (BirthInfo.mk d' lt city country)) = _
      rw [if_pos (Ne.symm hne)]

/-- Witness for C9 at a concrete matching input. -/
theorem C9_witness : validDateTime ⟨1990, 1, 1, 12, 0, 0⟩ ∧
    BirthInfo.construct "1990-01-01" ⟨1990, 1, 1, 12, 0, 0⟩ "New York" "USA" =
      Except.ok ⟨"1990-01-01", ⟨1990, 1, 1, 12, 0, 0⟩, "New York", "USA"⟩ :=
  ⟨by decide,
    (C9_date_mismatch_rejected "1990-01-01" ⟨1990, 1, 1, 12, 0, 0⟩ "New York" "USA"
      (by decide)).1 (by decide)⟩

end HD
